import Mathlib

/-!
Verification development for the LeCroy T3DSO1204 oscilloscope driver
(`src/pymeasure/instruments/lecroy/lecroyT3DSO1204.py`).

The driver is a thin stateful translation layer over a request/response
transport: every property read re-queries the physical instrument and no
value is cached.  We embed the instrument as a pure record `Instr` holding
the replies the instrument would currently give to each query; driver
operations become pure functions from `Instr` to `Except PyErr _`, paired
with the list of query strings they transmit where a claim is about which
queries are issued.  Python exceptions are embedded as the `PyErr` type.
-/

/-- Kinds of Python exceptions the embedded driver code can raise.
`valueError` covers Python `ValueError` (invalid argument), `keyError` a
failed mapping lookup, `indexError` an out-of-range index, `attributeError`
attribute access on `None` (e.g. a failed `re.match` indexed with
`.group`), and `recursionError` Python's recursion-depth limit. -/
inductive PyErr where
  | valueError (msg : String)
  | keyError (msg : String)
  | indexError
  | attributeError (msg : String)
  | recursionError
deriving DecidableEq, Repr

/-- One token of a parsed instrument reply, as produced by the transport's
`values()`: either a string token or a numeric token (numbers are parsed
to floats by the transport; we embed them as rationals). -/
inductive Tok where
  | str (s : String)
  | num (q : Rat)
deriving DecidableEq, Repr

/-- A `source` argument of `acquisition_sample_size`: Python passes either
an integer channel number or a string token ("channel number of channel
name", line 224 of the source). -/
inductive Src where
  | int (n : Int)
  | str (s : String)
deriving DecidableEq, Repr

/-- Vertical state of one analog channel: its `scale`, `offset` and `unit`
properties as currently reported by the instrument. -/
structure Chan where
  scale : Rat
  offset : Rat
  unit : String

/-- Snapshot of the instrument's current replies.  Fields whose decoding a
claim scrutinizes are stored as raw reply tokens (`wfsu_reply`,
`acq_reply`); fields the claims only copy around are stored already
decoded.  `sanu` gives the instrument's integer reply to a `SANU?` query
string; `math_define1` is element 1 of the `math_define` reply, i.e. the
quoted definition string of the MATH channel. -/
structure Instr where
  wfsu_reply : List Tok
  waveform_source : String
  acq_reply : List Tok
  avga : Int
  sara : Rat
  grid_number : Int
  status : String
  memory_size : Rat
  timebase_scale : Rat
  timebase_offset : Rat
  sanu : String → Int
  math_define1 : String
  math_vdiv : Rat
  math_vpos : Rat
  ch1 : Chan
  ch2 : Chan
  ch3 : Chan
  ch4 : Chan

/-- Python `list.index(t)`: position of the first occurrence of `t`, or
`ValueError` when `t` is absent. -/
def pyListIndex (t : Tok) : List Tok → Except PyErr Nat
  | [] => Except.error (PyErr.valueError "x not in list")
  | x :: xs =>
    if x = t then Except.ok 0
    else (pyListIndex t xs).map (· + 1)

/-- Python `l[i]` on a list: the element at `i`, or `IndexError` when `i`
is out of range. -/
def pyGet (v : List Tok) (i : Nat) : Except PyErr Tok :=
  match v[i]? with
  | some x => Except.ok x
  | none => Except.error PyErr.indexError

/-- Python `int()` on a float truncates toward zero. -/
def pyTrunc (q : Rat) : Int :=
  if 0 ≤ q then q.floor else q.ceil

/-- Python `int()` applied to a reply token: numeric tokens truncate
toward zero; the transport has already parsed numeric fields, so a string
token here fails. -/
def pyIntTok : Tok → Except PyErr Int
  | Tok.num q => Except.ok (pyTrunc q)
  | Tok.str _ => Except.error (PyErr.valueError "invalid literal for int")

/-- The single-quote character (χρ 39), written this way to keep string and
character literals simple. -/
def squote : Char := Char.ofNat 39

/-- A word character in the sense of the regex `\w` (ASCII range): letter,
digit or underscore. -/
def isWordChar (c : Char) : Bool := c.isAlphanum || c = '_'

/-- Embedding of the regex match of source line 238: a single quote, a
first group of one or more word characters, one operator character (plus,
minus, slash or star), a second group of one or more word characters, and
a closing single quote.  `re.match` anchors at the start of the string
only, so trailing text after the closing quote is accepted.  The greedy
word-character groups never benefit from backtracking here: shortening a
group makes the next pattern character fall on a word character, and
neither an operator character nor the quote is a word character.  Hence
the match succeeds exactly on `quote ++ w1 ++ op ++ w2 ++ quote ++
anything` with `w1`, `w2` the maximal nonempty word-character runs, and
the captured groups are `w1`, `w2`. -/
def mathDefineParse (s : String) : Option (String × String) :=
  match s.data with
  | [] => none
  | c :: rest =>
    if c = squote then
      let w1 := rest.takeWhile isWordChar
      let r1 := rest.dropWhile isWordChar
      if w1 = [] then none
      else
        match r1 with
        | [] => none
        | op :: r2 =>
          if op = '+' ∨ op = '-' ∨ op = '/' ∨ op = '*' then
            let w2 := r2.takeWhile isWordChar
            let r3 := r2.dropWhile isWordChar
            if w2 = [] then none
            else
              match r3 with
              | [] => none
              | d :: _ =>
                if d = squote then some (String.mk w1, String.mk w2) else none
          else none
    else none

/-- ASCII uppercase of one character. -/
def charUpper (c : Char) : Char :=
  if 'a' ≤ c ∧ c ≤ 'z' then Char.ofNat (c.toNat - 32) else c

/-- ASCII uppercase of a string. -/
def toUpperAscii (s : String) : String := String.mk (s.data.map charUpper)

/-- Modelled from the spec: `sanitize_source` lives in the Teledyne base
driver (`pymeasure.instruments.teledyne.teledyne_oscilloscope`), which is
not under `src/`.  Per the spec's data model (spec section 3) a source
reference is a direct channel identifier "C1".."C4" or the derived
identifier "MATH"; sanitization canonicalizes the token (case folding) and
an unresolvable source token is an invalid-argument error (spec section
7a). -/
def sanitize_source (s : String) : Except PyErr String :=
  let u := toUpperAscii s
  match u.data with
  | [c, d] =>
    if c = 'C' ∧ d.isDigit then Except.ok u
    else Except.error (PyErr.valueError ("source " ++ s ++ " not recognized"))
  | _ =>
    if u = "MATH" then Except.ok u
    else Except.error (PyErr.valueError ("source " ++ s ++ " not recognized"))

/-- Modelled from the spec: the Command Property Accessor `get()` of a
measurement "issues the bound query template, receives a reply ... and
returns the resulting value" (spec section 4.1).  For a `SANU?` query the
decoded reply is the integer `st.sanu q`; the second component records the
transmitted query string. -/
def sanu_measurement (q : String) (st : Instr) : Int × List String :=
  (st.sanu q, [q])

/-- Source lines 244-249: the channel-1 sample-size measurement is bound
to the query "SANU? C1". -/
def acquisition_sample_size_c1 (st : Instr) : Int × List String :=
  sanu_measurement "SANU? C1" st

/-- Source lines 251-256: the channel-2 sample-size measurement is bound
to the query "SANU? C1" (channels 1 and 2 share the same ADC). -/
def acquisition_sample_size_c2 (st : Instr) : Int × List String :=
  sanu_measurement "SANU? C1" st

/-- Source lines 258-263: the channel-3 sample-size measurement is bound
to the query "SANU? C3". -/
def acquisition_sample_size_c3 (st : Instr) : Int × List String :=
  sanu_measurement "SANU? C3" st

/-- Source lines 265-270: the channel-4 sample-size measurement is bound
to the query "SANU? C3" (channels 3 and 4 share the same ADC). -/
def acquisition_sample_size_c4 (st : Instr) : Int × List String :=
  sanu_measurement "SANU? C3" st

/-- Modelled from the spec: reading `math_define` (a control of the
Teledyne base driver, not under `src/`) issues its bound query "DEF?" and
returns the reply; source line 237 uses element `[1]` of that reply, the
quoted definition string, which the state stores as `math_define1`. -/
def math_define1_read (st : Instr) : String × List String :=
  (st.math_define1, ["DEF?"])

/-- Message of the `ValueError` raised on source line 242. -/
def invalidSourceMsg : String :=
  "Invalid source: must be 1, 2, 3, 4 or C1, C2, C3, C4, MATH."

/-- Message of the Python `AttributeError` raised when `re.match` returned
`None` and source lines 239-240 call `.group` on it. -/
def attrGroupMsg : String :=
  "NoneType object has no attribute group"

/-- Lift a measurement result (value and transmitted queries) into the
fallible result-with-log form. -/
def liftMeas (p : Int × List String) : Except PyErr Int × List String :=
  (Except.ok p.1, p.2)

/-- Embedding of `LeCroyT3DSO1204.acquisition_sample_size` (source lines
219-242), returning the result together with the list of transmitted
query strings.  String sources are sanitized first (line 226-227); the
dispatch compares the sanitized source against `1/"C1"`, `2/"C2"`,
`3/"C3"`, `4/"C4"` and `"MATH"` in that order; the MATH branch reads
`math_define[1]`, applies the regex and recurses on the two groups (lines
236-240); any other source raises `ValueError` (lines 241-242) without
transmitting anything.  The `fuel` argument models Python's finite
recursion depth: a definition such as `'MATH+C1'` recurses forever in
Python and ends in `RecursionError`. -/
def acquisition_sample_size : Nat → Instr → Src → Except PyErr Int × List String
  | 0, _, _ => (Except.error PyErr.recursionError, [])
  | fuel + 1, st, source =>
    let sanitized : Except PyErr Src :=
      match source with
      | Src.str s => (sanitize_source s).map Src.str
      | Src.int n => Except.ok (Src.int n)
    match sanitized with
    | Except.error e => (Except.error e, [])
    | Except.ok src =>
      if src = Src.int 1 ∨ src = Src.str "C1" then
        liftMeas (acquisition_sample_size_c1 st)
      else if src = Src.int 2 ∨ src = Src.str "C2" then
        liftMeas (acquisition_sample_size_c2 st)
      else if src = Src.int 3 ∨ src = Src.str "C3" then
        liftMeas (acquisition_sample_size_c3 st)
      else if src = Src.int 4 ∨ src = Src.str "C4" then
        liftMeas (acquisition_sample_size_c4 st)
      else if src = Src.str "MATH" then
        let md := math_define1_read st
        match mathDefineParse md.1 with
        | none => (Except.error (PyErr.attributeError attrGroupMsg), md.2)
        | some (t1, t2) =>
          match acquisition_sample_size fuel st (Src.str t1) with
          | (Except.error e, l1) => (Except.error e, md.2 ++ l1)
          | (Except.ok a, l1) =>
            match acquisition_sample_size fuel st (Src.str t2) with
            | (Except.error e, l2) => (Except.error e, md.2 ++ l1 ++ l2)
            | (Except.ok b, l2) => (Except.ok (min a b), md.2 ++ l1 ++ l2)
      else
        (Except.error (PyErr.valueError invalidSourceMsg), [])

example : acquisition_sample_size 10
    { wfsu_reply := [], waveform_source := "MATH", acq_reply := [],
      avga := 16, sara := 1, grid_number := 14, status := "stopped",
      memory_size := 7000, timebase_scale := 1, timebase_offset := 0,
      sanu := fun q => if q = "SANU? C1" then 7000 else 3500,
      math_define1 := String.mk [squote, 'C', '1', '+', 'C', '3', squote],
      math_vdiv := 1, math_vpos := 0,
      ch1 := ⟨1, 0, "V"⟩, ch2 := ⟨1, 0, "V"⟩, ch3 := ⟨1, 0, "V"⟩,
      ch4 := ⟨1, 0, "V"⟩ }
    (Src.str "MATH")
    = (Except.ok 3500, ["DEF?", "SANU? C1", "SANU? C3"]) := by rfl

/-- Value returned by the `acquisition_type` property (source lines
190-199).  `plain s` is a single mapped token ("normal", "peak",
"average" or "highres"); `averaged n` is the two-element list built by the
`get_process` lambda from an "AVERAGE,n" reply; `rawList v` is a
multi-token reply that does not fit the AVERAGE pattern and is returned
untranslated. -/
inductive AcqValue where
  | plain (s : String)
  | averaged (n : Int)
  | rawList (v : List Tok)
deriving DecidableEq, Repr

/-- Device-token-to-semantic-token translation table of `acquisition_type`
(source lines 195-196), in the reading direction. -/
def invAcqMap : String → Option String
  | "SAMPLING" => some "normal"
  | "PEAK_DETECT" => some "peak"
  | "AVERAGE" => some "average"
  | "HIGH_RES" => some "highres"
  | _ => none

/-- Modelled from the spec plus source lines 190-199: the accessor `get()`
"applies map-value translation if a value-mapping table is configured ...
applies any post-process transform" (spec section 4.1).  A single-token
reply goes through the inverse value map (the post-process lambda of
source line 198 is the identity on such scalars, since no device token is
a two-character string starting with "AVERAGE"); a two-token reply whose
head is "AVERAGE" becomes the list of "average" and the integer count; any
other multi-token reply is returned untranslated. -/
def acquisition_type_value (st : Instr) : Except PyErr AcqValue :=
  match st.acq_reply with
  | [Tok.str s] =>
    match invAcqMap s with
    | some m => Except.ok (AcqValue.plain m)
    | none => Except.error (PyErr.keyError s)
  | [Tok.num _] => Except.error (PyErr.keyError "unmapped numeric reply")
  | [t0, t1] =>
    if t0 = Tok.str "AVERAGE" then (pyIntTok t1).map AcqValue.averaged
    else Except.ok (AcqValue.rawList [t0, t1])
  | v => Except.ok (AcqValue.rawList v)

/-- Python indexing `value[0]` applied to an acquisition-type value, as on
source line 328: indexing a Python string yields a one-character string;
indexing the two-element average list yields its head "average"; indexing
an untranslated reply list yields its first token; indexing an empty
string or list raises `IndexError`. -/
def pyIndex0 : AcqValue → Except PyErr Tok
  | AcqValue.plain s =>
    if s = "" then Except.error PyErr.indexError
    else Except.ok (Tok.str (s.take 1))
  | AcqValue.averaged _ => Except.ok (Tok.str "average")
  | AcqValue.rawList [] => Except.error PyErr.indexError
  | AcqValue.rawList (t :: _) => Except.ok t

/-- Primary tag of a resolved acquisition type: the semantic token itself
for a plain value, and "average" for the average-with-count list.  (For an
untranslated reply list, the head token when it is a string.) -/
def AcqValue.primaryTag : AcqValue → String
  | AcqValue.plain s => s
  | AcqValue.averaged _ => "average"
  | AcqValue.rawList (Tok.str s :: _) => s
  | AcqValue.rawList _ => ""

/-- Replies the instrument's ACQW? query can give, per the programmer's
guide expectation encoded in the driver's post-process lambda (source line
198): one of the three plain mode tokens, or "AVERAGE" followed by the
numeric average count. -/
def validAcqReply : List Tok → Bool
  | [Tok.str "SAMPLING"] => true
  | [Tok.str "PEAK_DETECT"] => true
  | [Tok.str "HIGH_RES"] => true
  | [Tok.str "AVERAGE", Tok.num _] => true
  | _ => false

/-- Modelled from the spec: the validation collaborator's "discrete-set
membership" strategy (`pymeasure.instruments.validators`, not under
`src/`) takes a candidate and the allowed set and returns the accepted
value or signals invalid-argument (spec sections 6 and 7a). -/
def strict_discrete_set (v : String) (vals : List String) : Except PyErr String :=
  if v ∈ vals then Except.ok v
  else Except.error (PyErr.valueError ("Value of " ++ v ++ " is not in the discrete set"))

/-- Modelled from the spec: `self.ch(source)` (Teledyne base driver, not
under `src/`) resolves a direct channel token to that channel object
(spec section 2: "per-channel ... dispatch", resolving a named source "to
the correct underlying ... scaling fields"). -/
def ch (st : Instr) : String → Except PyErr Chan
  | "C1" => Except.ok st.ch1
  | "C2" => Except.ok st.ch2
  | "C3" => Except.ok st.ch3
  | "C4" => Except.ok st.ch4
  | s => Except.error (PyErr.keyError s)

/-- Embedding of `LeCroyT3DSO1204._fill_yaxis_preamble` (source lines
333-348), restricted to the three fields it fills: if the selected
waveform source is "MATH", the vertical scale and position come from the
math channel's own `math_vdiv` and `math_vpos` properties and the unit is
`None`; otherwise all three come from the resolved channel's `scale`,
`offset` and `unit` properties. -/
def fill_yaxis_preamble (st : Instr) : Except PyErr (Rat × Rat × Option String) :=
  if st.waveform_source = "MATH" then
    Except.ok (st.math_vdiv, st.math_vpos, none)
  else
    match ch st st.waveform_source with
    | Except.error e => Except.error e
    | Except.ok c => Except.ok (c.scale, c.offset, some c.unit)

/-- Extraction of the three point-count fields from the WFSU? reply
(source lines 313-317): for each of the markers "SP", "NP", "FP", locate
its first occurrence with Python `list.index` and read the element
immediately following it. -/
def wfsu_fields (st : Instr) : Except PyErr (Tok × Tok × Tok) :=
  let vals := st.wfsu_reply
  match pyListIndex (Tok.str "SP") vals with
  | Except.error e => Except.error e
  | Except.ok iSP =>
    match pyGet vals (iSP + 1) with
    | Except.error e => Except.error e
    | Except.ok sp =>
      match pyListIndex (Tok.str "NP") vals with
      | Except.error e => Except.error e
      | Except.ok iNP =>
        match pyGet vals (iNP + 1) with
        | Except.error e => Except.error e
        | Except.ok np =>
          match pyListIndex (Tok.str "FP") vals with
          | Except.error e => Except.error e
          | Except.ok iFP =>
            match pyGet vals (iFP + 1) with
            | Except.error e => Except.error e
            | Except.ok fp => Except.ok (sp, np, fp)

/-- Python's default recursion-depth limit, bounding the recursion of
`acquisition_sample_size` inside the preamble assembly. -/
def RECURSION_LIMIT : Nat := 1000

/-- The waveform preamble: the mapping of named fields assembled by the
`waveform_preamble` property (source lines 289-331 and 333-348). -/
structure Preamble where
  sparsing : Tok
  requested_points : Tok
  first_point : Tok
  transmitted_points : Option Tok
  source : String
  type : AcqValue
  sampling_rate : Rat
  grid_number : Int
  status : String
  memory_size : Rat
  xdiv : Rat
  xoffset : Rat
  average : Option Int
  sampled_points : Int
  ydiv : Rat
  yoffset : Rat
  unit : Option String
deriving DecidableEq, Repr

/-- Embedding of the `waveform_preamble` property (source lines 289-331),
following the source's order of fallible steps: extract "SP"/"NP"/"FP"
point-count fields from the WFSU? reply (lines 315-317), read the
acquisition type (line 320), populate "average" from the indexing test of
line 328, validate the selected waveform source against the five accepted
tokens (line 329), resolve "sampled_points" through
`acquisition_sample_size` (line 330), and fill the Y-axis fields (line
331).  A failing step aborts the whole assembly with its error and no
preamble is returned. -/
def waveform_preamble (st : Instr) : Except PyErr Preamble :=
  match wfsu_fields st with
  | Except.error e => Except.error e
  | Except.ok (sp, np, fp) =>
    match acquisition_type_value st with
    | Except.error e => Except.error e
    | Except.ok t =>
      match pyIndex0 t with
      | Except.error e => Except.error e
      | Except.ok h =>
        let avg := if h = Tok.str "average" then some st.avga else none
        match strict_discrete_set st.waveform_source ["C1", "C2", "C3", "C4", "MATH"] with
        | Except.error e => Except.error e
        | Except.ok _ =>
          match (acquisition_sample_size RECURSION_LIMIT st (Src.str st.waveform_source)).1 with
          | Except.error e => Except.error e
          | Except.ok n =>
            match fill_yaxis_preamble st with
            | Except.error e => Except.error e
            | Except.ok (ydiv, yoffset, unit) =>
              Except.ok
                { sparsing := sp, requested_points := np, first_point := fp,
                  transmitted_points := none, source := st.waveform_source,
                  type := t, sampling_rate := st.sara,
                  grid_number := st.grid_number, status := st.status,
                  memory_size := st.memory_size, xdiv := st.timebase_scale,
                  xoffset := st.timebase_offset, average := avg,
                  sampled_points := n, ydiv := ydiv, yoffset := yoffset,
                  unit := unit }

/-- Names of the four timebase properties assigned by `timebase_setup`. -/
inductive TbProp where
  | scale
  | offset
  | horMagnify
  | horPosition
deriving DecidableEq, Repr

/-- The timebase portion of the instrument state: the four properties a
`timebase_setup` call can write. -/
structure TbState where
  timebase_scale : Rat
  timebase_offset : Rat
  timebase_hor_magnify : Rat
  timebase_hor_position : Rat
deriving DecidableEq, Repr

/-- Modelled from the spec: the validation collaborator's numeric-range
strategy (`pymeasure.instruments.validators`, not under `src/`): a
candidate inside the inclusive range is accepted, any other candidate
signals invalid-argument before any transmission occurs (spec sections 6
and 7a, section 4.1 "validation failure signals an invalid-argument error
before any transmission occurs (no partial state change)"). -/
def strict_range (lo hi v : Rat) : Except PyErr Rat :=
  if lo ≤ v ∧ v ≤ hi then Except.ok v
  else Except.error (PyErr.valueError "value not in range")

/-- Lower bound of the `timebase_hor_magnify` validator range (source
lines 134-140: validator strict_range, values equal to 1e-9 and 20e-3). -/
def HMAG_LO : Rat := 1 / 1000000000

/-- Upper bound of the `timebase_hor_magnify` validator range (source
lines 134-140). -/
def HMAG_HI : Rat := 20 / 1000

/-- Modelled from the spec: `timebase_scale` and `timebase_offset` are
controls of the Teledyne base driver, not under `src/`; per spec section
4.1 their setters validate the candidate against the configured validator
before transmitting, but the configured ranges are not visible in `src/`,
so the two validators are abstract parameters of the embedding. -/
structure TbValidators where
  scale_ok : Rat → Bool
  offset_ok : Rat → Bool

/-- Embedding of `LeCroyT3DSO1204.timebase_setup` (source lines 167-184):
each non-None parameter is assigned to its property in source order.  An
assignment invokes the property setter, which validates the candidate
first: `timebase_scale` and `timebase_offset` against the abstract base
driver validators, `timebase_hor_magnify` against the strict_range
validator over [1e-9, 20e-3] configured in source lines 134-140, while
`timebase_hor_position` (source lines 142-148) has no validator and
always writes.  A rejected candidate raises `ValueError` before any
transmission for that property, and the exception aborts the remaining
assignments; writes already performed persist.  The result is the final
timebase state, the list of properties actually written, and the raised
error if any. -/
def timebase_setup (vals : TbValidators) (st : TbState)
    (scale offset hor_magnify hor_position : Option Rat) :
    TbState × List TbProp × Option PyErr :=
  let s1 : TbState × List TbProp × Option PyErr :=
    match scale with
    | none => (st, [], none)
    | some v =>
      if vals.scale_ok v then ({ st with timebase_scale := v }, [TbProp.scale], none)
      else (st, [], some (PyErr.valueError "value not in range"))
  match s1.2.2 with
  | some _ => s1
  | none =>
    let s2 : TbState × List TbProp × Option PyErr :=
      match offset with
      | none => (s1.1, s1.2.1, none)
      | some v =>
        if vals.offset_ok v then
          ({ s1.1 with timebase_offset := v }, s1.2.1 ++ [TbProp.offset], none)
        else (s1.1, s1.2.1, some (PyErr.valueError "value not in range"))
    match s2.2.2 with
    | some _ => s2
    | none =>
      let s3 : TbState × List TbProp × Option PyErr :=
        match hor_magnify with
        | none => (s2.1, s2.2.1, none)
        | some v =>
          match strict_range HMAG_LO HMAG_HI v with
          | Except.ok w =>
            ({ s2.1 with timebase_hor_magnify := w }, s2.2.1 ++ [TbProp.horMagnify], none)
          | Except.error e => (s2.1, s2.2.1, some e)
      match s3.2.2 with
      | some _ => s3
      | none =>
        match hor_position with
        | none => (s3.1, s3.2.1, none)
        | some v =>
          ({ s3.1 with timebase_hor_position := v }, s3.2.1 ++ [TbProp.horPosition], none)

/-- Modelled from the spec: the minimum inter-command interval
`WRITE_INTERVAL_S` is 10 ms by default (source docstring lines 105-114;
the limiter itself lives in the Teledyne base driver, not under `src/`).
Times are in seconds. -/
def WRITE_INTERVAL_S : Rat := 1 / 100

/-- Modelled from the spec: "before transmitting, the accessor computes
elapsed time since the last transmission and sleeps for the remaining
deficit if any" (spec section 5).  Given the previous transmission time
`last` and the instant `now` the command is issued, the command is
transmitted at `now` when the interval has already elapsed and at
`last + interval` otherwise. -/
def nextTransmission (interval last now : Rat) : Rat :=
  if now - last < interval then last + interval else now

/-- Transmission times of a sequence of commands issued at the given
instants, starting from previous transmission time `last`: each command
waits out the remaining deficit of the rate limiter. -/
def transmissionTimes (interval : Rat) : Rat → List Rat → List Rat
  | _, [] => []
  | last, now :: rest =>
    let t := nextTransmission interval last now
    t :: transmissionTimes interval t rest

/-- Concrete instrument snapshot used by the witnesses: source is the
derived channel, the math definition combines channels 1 and 3, and the
WFSU? reply carries the marker-value pairs of the spec's example. -/
def stW : Instr :=
  { wfsu_reply := [Tok.str "SP", Tok.num 1, Tok.str "NP", Tok.num 0,
                   Tok.str "FP", Tok.num 0],
    waveform_source := "MATH",
    acq_reply := [Tok.str "SAMPLING"],
    avga := 16, sara := 1000000, grid_number := 14, status := "stopped",
    memory_size := 7000, timebase_scale := 1, timebase_offset := 0,
    sanu := fun q => if q = "SANU? C1" then 7000 else 3500,
    math_define1 := String.mk [squote, 'C', '1', '+', 'C', '3', squote],
    math_vdiv := 2, math_vpos := 3,
    ch1 := ⟨1/2, 1/10, "V"⟩, ch2 := ⟨1/4, 0, "A"⟩,
    ch3 := ⟨1, 0, "V"⟩, ch4 := ⟨2, 0, "V"⟩ }

/-- The preamble `waveform_preamble` assembles from `stW`. -/
def pW : Preamble :=
  { sparsing := Tok.num 1, requested_points := Tok.num 0,
    first_point := Tok.num 0, transmitted_points := none, source := "MATH",
    type := AcqValue.plain "normal", sampling_rate := 1000000,
    grid_number := 14, status := "stopped", memory_size := 7000,
    xdiv := 1, xoffset := 0, average := none, sampled_points := 3500,
    ydiv := 2, yoffset := 3, unit := none }

example : waveform_preamble stW = Except.ok pW := by rfl

/-- Variant of `stW` whose source is channel 1 and whose scope is in
average acquisition mode. -/
def stC1 : Instr :=
  { stW with waveform_source := "C1",
             acq_reply := [Tok.str "AVERAGE", Tok.num 16] }

/-- The preamble `waveform_preamble` assembles from `stC1`. -/
def pC1 : Preamble :=
  { sparsing := Tok.num 1, requested_points := Tok.num 0,
    first_point := Tok.num 0, transmitted_points := none, source := "C1",
    type := AcqValue.averaged 16, sampling_rate := 1000000,
    grid_number := 14, status := "stopped", memory_size := 7000,
    xdiv := 1, xoffset := 0, average := some 16, sampled_points := 7000,
    ydiv := 1/2, yoffset := 1/10, unit := some "V" }

example : waveform_preamble stC1 = Except.ok pC1 := by rfl

/-- Variant of `stW` whose selected waveform source is the out-of-set
token "C5". -/
def stBad : Instr := { stW with waveform_source := "C5" }

/-- Variant of `stW` whose math-definition string lacks the quoting the
regex requires. -/
def stBadMath : Instr := { stW with math_define1 := "C1+C2" }

/-- Concrete abstract-validator instance accepting every candidate for
the two base-driver timebase properties. -/
def valsAll : TbValidators := { scale_ok := fun _ => true, offset_ok := fun _ => true }

/-- Concrete timebase state used by the C10 counterexample and witness. -/
def tbW : TbState :=
  { timebase_scale := 1 / 1000, timebase_offset := 0,
    timebase_hor_magnify := 1 / 1000, timebase_hor_position := 0 }

/-- Python `list.index` finds the first occurrence: on a list that splits
as `a ++ t :: l` with `t` absent from `a`, it returns the length of `a`. -/
lemma pyListIndex_of_decomp (t : Tok) (a l : List Tok) (hn : t ∉ a) :
    pyListIndex t (a ++ t :: l) = Except.ok a.length := by
  induction a with
  | nil => simp [pyListIndex]
  | cons c cs ih =>
    have hc : ¬(c = t) := fun e => hn (by simp [e])
    have hcs : t ∉ cs := fun hm => hn (List.mem_cons_of_mem _ hm)
    simp [pyListIndex, hc, ih hcs, Except.map]

/-- Indexing one past the marker of such a split reads the element
immediately following the marker. -/
lemma pyGet_of_decomp (a l : List Tok) (t x : Tok) :
    pyGet (a ++ t :: x :: l) (a.length + 1) = Except.ok x := by
  unfold pyGet
  rw [List.getElem?_append_right (by omega)]
  simp

/-- The three point-count fields extracted by `wfsu_fields` are the
elements immediately following the first occurrences of the "SP", "NP"
and "FP" markers. -/
lemma wfsu_fields_of_decomp (st : Instr)
    (a1 a2 a3 r1 r2 r3 : List Tok) (x y z : Tok)
    (h1 : st.wfsu_reply = a1 ++ Tok.str "SP" :: x :: r1)
    (n1 : Tok.str "SP" ∉ a1)
    (h2 : st.wfsu_reply = a2 ++ Tok.str "NP" :: y :: r2)
    (n2 : Tok.str "NP" ∉ a2)
    (h3 : st.wfsu_reply = a3 ++ Tok.str "FP" :: z :: r3)
    (n3 : Tok.str "FP" ∉ a3) :
    wfsu_fields st = Except.ok (x, y, z) := by
  have e1 : pyListIndex (Tok.str "SP") st.wfsu_reply = Except.ok a1.length := by
    rw [h1]; exact pyListIndex_of_decomp _ _ _ n1
  have g1 : pyGet st.wfsu_reply (a1.length + 1) = Except.ok x := by
    rw [h1]; exact pyGet_of_decomp _ _ _ _
  have e2 : pyListIndex (Tok.str "NP") st.wfsu_reply = Except.ok a2.length := by
    rw [h2]; exact pyListIndex_of_decomp _ _ _ n2
  have g2 : pyGet st.wfsu_reply (a2.length + 1) = Except.ok y := by
    rw [h2]; exact pyGet_of_decomp _ _ _ _
  have e3 : pyListIndex (Tok.str "FP") st.wfsu_reply = Except.ok a3.length := by
    rw [h3]; exact pyListIndex_of_decomp _ _ _ n3
  have g3 : pyGet st.wfsu_reply (a3.length + 1) = Except.ok z := by
    rw [h3]; exact pyGet_of_decomp _ _ _ _
  simp only [wfsu_fields, e1, g1, e2, g2, e3, g3]

/-- Inversion of a successful preamble assembly: every field of the
returned preamble is determined by the corresponding step of
`waveform_preamble`, and the selected source passed the discrete-set
validation. -/
lemma waveform_preamble_ok_inv (st : Instr) (p : Preamble)
    (hp : waveform_preamble st = Except.ok p) :
    wfsu_fields st = Except.ok (p.sparsing, p.requested_points, p.first_point) ∧
    acquisition_type_value st = Except.ok p.type ∧
    (pyIndex0 p.type).map
      (fun h => if h = Tok.str "average" then some st.avga else none)
      = Except.ok p.average ∧
    st.waveform_source ∈ (["C1", "C2", "C3", "C4", "MATH"] : List String) ∧
    p.source = st.waveform_source ∧
    (acquisition_sample_size RECURSION_LIMIT st (Src.str st.waveform_source)).1
      = Except.ok p.sampled_points ∧
    fill_yaxis_preamble st = Except.ok (p.ydiv, p.yoffset, p.unit) := by
  unfold waveform_preamble at hp
  cases h1 : wfsu_fields st with
  | error e => rw [h1] at hp; exact Except.noConfusion hp
  | ok v =>
    obtain ⟨sp, np, fp⟩ := v
    simp only [h1] at hp
    cases h2 : acquisition_type_value st with
    | error e => simp only [h2] at hp; exact Except.noConfusion hp
    | ok t =>
      simp only [h2] at hp
      cases h3 : pyIndex0 t with
      | error e => simp only [h3] at hp; exact Except.noConfusion hp
      | ok hd =>
        simp only [h3] at hp
        cases h4 : strict_discrete_set st.waveform_source
            ["C1", "C2", "C3", "C4", "MATH"] with
        | error e => simp only [h4] at hp; exact Except.noConfusion hp
        | ok w =>
          simp only [h4] at hp
          cases h5 : (acquisition_sample_size RECURSION_LIMIT st
              (Src.str st.waveform_source)).1 with
          | error e => simp only [h5] at hp; exact Except.noConfusion hp
          | ok n =>
            simp only [h5] at hp
            cases h6 : fill_yaxis_preamble st with
            | error e => simp only [h6] at hp; exact Except.noConfusion hp
            | ok yv =>
              obtain ⟨yd, yo, u⟩ := yv
              simp only [h6] at hp
              injection hp with hp
              subst hp
              have hmem : st.waveform_source ∈
                  (["C1", "C2", "C3", "C4", "MATH"] : List String) := by
                by_cases hm : st.waveform_source ∈
                    (["C1", "C2", "C3", "C4", "MATH"] : List String)
                · exact hm
                · rw [strict_discrete_set, if_neg hm] at h4
                  exact Except.noConfusion h4
              exact ⟨rfl, rfl, by simp [h3, Except.map], hmem, rfl, rfl, rfl⟩

/-- Claim C3: for every instrument state, the sample size reported for
channel 1 equals the sample size reported for channel 2, and the sample
size reported for channel 3 equals the sample size reported for channel 4;
the channel-1 and channel-2 accessors issue the identical query, as do the
channel-3 and channel-4 accessors. -/
theorem claim_C3_shared_adc_sample_size (st : Instr) :
    acquisition_sample_size_c1 st = acquisition_sample_size_c2 st ∧
    acquisition_sample_size_c3 st = acquisition_sample_size_c4 st :=
  ⟨rfl, rfl⟩

/-- Claim C9: consecutive transmissions through the rate limiter are
always at least the configured minimum interval apart, for every issuing
schedule and every previous transmission time; the default interval
`WRITE_INTERVAL_S` is 10 ms. -/
theorem claim_C9_write_interval (interval t0 : Rat) (reqs : List Rat) :
    List.Chain' (fun a b => interval ≤ b - a)
      (t0 :: transmissionTimes interval t0 reqs) ∧
    WRITE_INTERVAL_S = 1 / 100 := by
  refine ⟨?_, rfl⟩
  induction reqs generalizing t0 with
  | nil => exact List.chain'_singleton t0
  | cons now rest ih =>
    simp only [transmissionTimes]
    refine List.chain'_cons.mpr ⟨?_, ih _⟩
    unfold nextTransmission
    split
    · simp
    · next hlt => linarith [not_lt.mp hlt]

/-- Claim C10 (amended): in every call of `timebase_setup` whose
non-None arguments all pass their property validators, each of the four
timebase properties is written exactly when the corresponding argument is
not None, no error is raised, and a parameter passed as None causes no
write for its property, leaving that property's state untouched. -/
theorem claim_C10_timebase_setup_frame (vals : TbValidators) (st : TbState)
    (scale offset hor_magnify hor_position : Option Rat)
    (hs : scale.all vals.scale_ok = true)
    (ho : offset.all vals.offset_ok = true)
    (hm : hor_magnify.all
      (fun v => decide (HMAG_LO ≤ v ∧ v ≤ HMAG_HI)) = true) :
    ((timebase_setup vals st scale offset hor_magnify hor_position).2.2
      = none) ∧
    (TbProp.scale ∈ (timebase_setup vals st scale offset hor_magnify hor_position).2.1
      ↔ scale.isSome) ∧
    ((timebase_setup vals st scale offset hor_magnify hor_position).1.timebase_scale
      = scale.getD st.timebase_scale) ∧
    (TbProp.offset ∈ (timebase_setup vals st scale offset hor_magnify hor_position).2.1
      ↔ offset.isSome) ∧
    ((timebase_setup vals st scale offset hor_magnify hor_position).1.timebase_offset
      = offset.getD st.timebase_offset) ∧
    (TbProp.horMagnify ∈ (timebase_setup vals st scale offset hor_magnify hor_position).2.1
      ↔ hor_magnify.isSome) ∧
    ((timebase_setup vals st scale offset hor_magnify hor_position).1.timebase_hor_magnify
      = hor_magnify.getD st.timebase_hor_magnify) ∧
    (TbProp.horPosition ∈ (timebase_setup vals st scale offset hor_magnify hor_position).2.1
      ↔ hor_position.isSome) ∧
    ((timebase_setup vals st scale offset hor_magnify hor_position).1.timebase_hor_position
      = hor_position.getD st.timebase_hor_position) := by
  rcases scale with _ | a <;> rcases offset with _ | b <;>
    rcases hor_magnify with _ | c <;> rcases hor_position with _ | d <;>
    simp_all [timebase_setup, strict_range, Option.all]

/-- Counterexample to claim C10 as frozen: at the out-of-range value 1
(seconds per division, above the 20e-3 upper bound of source lines
134-140) the hor_magnify argument is not None and yet its property is not
written — the setter's strict_range validator raises `ValueError` before
any transmission, the following hor_position assignment is skipped too,
and the timebase state is left entirely unchanged. -/
theorem claim_C10_counterexample :
    (some (1 : Rat)).isSome = true ∧
    TbProp.horMagnify ∉
      (timebase_setup valsAll tbW none none (some 1) (some 2)).2.1 ∧
    TbProp.horPosition ∉
      (timebase_setup valsAll tbW none none (some 1) (some 2)).2.1 ∧
    (timebase_setup valsAll tbW none none (some 1) (some 2)).1 = tbW ∧
    (timebase_setup valsAll tbW none none (some 1) (some 2)).2.2
      = some (PyErr.valueError "value not in range") := by
  have hout : ¬(HMAG_LO ≤ (1 : Rat) ∧ (1 : Rat) ≤ HMAG_HI) := by
    rw [HMAG_LO, HMAG_HI]
    norm_num
  have hT : timebase_setup valsAll tbW none none (some 1) (some 2)
      = (tbW, [], some (PyErr.valueError "value not in range")) := by
    simp [timebase_setup, strict_range, hout]
  refine ⟨rfl, ?_, ?_, ?_, ?_⟩ <;> simp [hT]

/-- Witness for the amended claim C10 at in-range arguments. -/
theorem claim_C10_witness :
    ((some (1 / 1000 : Rat)).all valsAll.scale_ok = true) ∧
    ((some (1 / 100 : Rat)).all
      (fun v => decide (HMAG_LO ≤ v ∧ v ≤ HMAG_HI)) = true) ∧
    ((timebase_setup valsAll tbW (some (1 / 1000)) none (some (1 / 100))
        (some 5)).2.2 = none) ∧
    (TbProp.scale ∈ (timebase_setup valsAll tbW (some (1 / 1000)) none
        (some (1 / 100)) (some 5)).2.1 ↔ (some (1 / 1000 : Rat)).isSome) ∧
    (TbProp.offset ∈ (timebase_setup valsAll tbW (some (1 / 1000)) none
        (some (1 / 100)) (some 5)).2.1 ↔ (none : Option Rat).isSome) := by
  have hsOk : (some (1 / 1000 : Rat)).all valsAll.scale_ok = true := rfl
  have hmOk : (some (1 / 100 : Rat)).all
      (fun v => decide (HMAG_LO ≤ v ∧ v ≤ HMAG_HI)) = true := by
    rw [Option.all, HMAG_LO, HMAG_HI]
    norm_num
  have h := claim_C10_timebase_setup_frame valsAll tbW
    (some (1 / 1000)) none (some (1 / 100)) (some 5) hsOk rfl hmOk
  exact ⟨hsOk, hmOk, h.1, h.2.1, h.2.2.2.1⟩

/-- Claim C7: every source argument that is neither one of the integers
1..4 nor (after source sanitization) one of the string tokens "C1".."C4",
"MATH" makes `acquisition_sample_size` raise the `ValueError` "Invalid
source: must be 1, 2, 3, 4 or C1, C2, C3, C4, MATH.", and no query is
transmitted for that source. -/
theorem claim_C7_invalid_source_rejected (st : Instr) (fuel : Nat) :
    (∀ n : Int, n ∉ ([1, 2, 3, 4] : List Int) →
      acquisition_sample_size (fuel + 1) st (Src.int n)
        = (Except.error (PyErr.valueError invalidSourceMsg), [])) ∧
    (∀ s u, sanitize_source s = Except.ok u →
      u ∉ (["C1", "C2", "C3", "C4", "MATH"] : List String) →
      acquisition_sample_size (fuel + 1) st (Src.str s)
        = (Except.error (PyErr.valueError invalidSourceMsg), [])) := by
  constructor
  · intro n hn
    simp only [List.mem_cons, List.not_mem_nil, or_false, not_or] at hn
    obtain ⟨e1, e2, e3, e4⟩ := hn
    simp [acquisition_sample_size, e1, e2, e3, e4]
  · intro s u hu hmem
    simp only [List.mem_cons, List.not_mem_nil, or_false, not_or] at hmem
    obtain ⟨e1, e2, e3, e4, e5⟩ := hmem
    simp [acquisition_sample_size, hu, Except.map, e1, e2, e3, e4, e5]

/-- Witness for claim C7 at the concrete sources 5 and "C5". -/
theorem claim_C7_witness :
    ((5 : Int) ∉ ([1, 2, 3, 4] : List Int)) ∧
    sanitize_source "C5" = Except.ok "C5" ∧
    ("C5" ∉ (["C1", "C2", "C3", "C4", "MATH"] : List String)) ∧
    acquisition_sample_size 1000 stW (Src.int 5)
      = (Except.error (PyErr.valueError invalidSourceMsg), []) ∧
    acquisition_sample_size 1000 stW (Src.str "C5")
      = (Except.error (PyErr.valueError invalidSourceMsg), []) := by
  refine ⟨by decide, by rfl, by decide, ?_, ?_⟩
  · exact (claim_C7_invalid_source_rejected stW 999).1 5 (by decide)
  · exact (claim_C7_invalid_source_rejected stW 999).2 "C5" "C5" (by rfl) (by decide)

/-- Claim C8: when the stored math-definition string does not match the
quoted two-operand pattern, `acquisition_sample_size` with source "MATH"
fails with the unhandled structural error of indexing the failed regex
match (a Python `AttributeError`), after having issued the definition
query, and this error differs from the invalid-argument error of the
source check. -/
theorem claim_C8_math_parse_failure (st : Instr) (fuel : Nat)
    (h : mathDefineParse st.math_define1 = none) :
    acquisition_sample_size (fuel + 1) st (Src.str "MATH")
      = (Except.error (PyErr.attributeError attrGroupMsg), ["DEF?"]) ∧
    PyErr.attributeError attrGroupMsg ≠ PyErr.valueError invalidSourceMsg := by
  constructor
  · have hs : sanitize_source "MATH" = Except.ok "MATH" := rfl
    simp [acquisition_sample_size, hs, Except.map, math_define1_read, h]
  · intro hcontra
    exact PyErr.noConfusion hcontra

/-- Witness for claim C8 at a definition string lacking the quoting. -/
theorem claim_C8_witness :
    mathDefineParse stBadMath.math_define1 = none ∧
    acquisition_sample_size 1000 stBadMath (Src.str "MATH")
      = (Except.error (PyErr.attributeError attrGroupMsg), ["DEF?"]) := by
  refine ⟨by rfl, ?_⟩
  exact (claim_C8_math_parse_failure stBadMath 999 (by rfl)).1

/-- One unfolding of the MATH branch of `acquisition_sample_size`: with a
successfully parsed definition and successfully resolved operands, the
result is the minimum of the two operand resolutions. -/
lemma acquisition_sample_size_math_succ (st : Instr) (fuel : Nat)
    (t1 t2 : String) (a b : Int) (l1 l2 : List String)
    (hparse : mathDefineParse st.math_define1 = some (t1, t2))
    (hq1 : acquisition_sample_size fuel st (Src.str t1) = (Except.ok a, l1))
    (hq2 : acquisition_sample_size fuel st (Src.str t2) = (Except.ok b, l2)) :
    (acquisition_sample_size (fuel + 1) st (Src.str "MATH")).1
      = Except.ok (min a b) := by
  have hs : sanitize_source "MATH" = Except.ok "MATH" := rfl
  simp [acquisition_sample_size, hs, Except.map, math_define1_read,
    hparse, hq1, hq2]

/-- Claim C1: when the stored math-definition string parses as
two operand tokens joined by one of the four operators, a call of
`acquisition_sample_size` with source "MATH" returns the minimum of the
sample sizes obtained by recursively resolving the two operand tokens;
consequently the preamble's sampled_points for the derived source equals
that minimum. -/
theorem claim_C1_math_sampled_points_min (st : Instr) (t1 t2 : String)
    (a b : Int) (p : Preamble)
    (hparse : mathDefineParse st.math_define1 = some (t1, t2))
    (h1 : (acquisition_sample_size (RECURSION_LIMIT - 1) st (Src.str t1)).1
      = Except.ok a)
    (h2 : (acquisition_sample_size (RECURSION_LIMIT - 1) st (Src.str t2)).1
      = Except.ok b) :
    (acquisition_sample_size RECURSION_LIMIT st (Src.str "MATH")).1
      = Except.ok (min a b) ∧
    (st.waveform_source = "MATH" → waveform_preamble st = Except.ok p →
      p.sampled_points = min a b) := by
  have hRL : RECURSION_LIMIT = (RECURSION_LIMIT - 1) + 1 := by
    norm_num [RECURSION_LIMIT]
  cases hq1 : acquisition_sample_size (RECURSION_LIMIT - 1) st (Src.str t1) with
  | mk r1 l1 =>
  cases hq2 : acquisition_sample_size (RECURSION_LIMIT - 1) st (Src.str t2) with
  | mk r2 l2 =>
  rw [hq1] at h1
  rw [hq2] at h2
  have hr1 : r1 = Except.ok a := h1
  have hr2 : r2 = Except.ok b := h2
  subst hr1
  subst hr2
  have key : (acquisition_sample_size RECURSION_LIMIT st (Src.str "MATH")).1
      = Except.ok (min a b) := by
    rw [hRL]
    exact acquisition_sample_size_math_succ st (RECURSION_LIMIT - 1)
      t1 t2 a b l1 l2 hparse hq1 hq2
  refine ⟨key, fun hsrc hp => ?_⟩
  obtain ⟨-, -, -, -, -, A6, -⟩ := waveform_preamble_ok_inv st p hp
  rw [hsrc] at A6
  rw [key] at A6
  injection A6 with A6
  exact A6.symm

/-- Witness for claim C1 at the state `stW`, whose math definition reads
channel 1 plus channel 3. -/
theorem claim_C1_witness :
    mathDefineParse stW.math_define1 = some ("C1", "C3") ∧
    (acquisition_sample_size 1000 stW (Src.str "MATH")).1
      = Except.ok (min 7000 3500) ∧
    stW.waveform_source = "MATH" ∧
    pW.sampled_points = min 7000 3500 := by
  have h := claim_C1_math_sampled_points_min stW "C1" "C3" 7000 3500 pW
    (by rfl) (by rfl) (by rfl)
  exact ⟨by rfl, h.1, by rfl, h.2 rfl (by rfl)⟩

/-- Claim C2: before resolving sampled_points, `waveform_preamble`
validates the selected waveform source against the five accepted tokens;
for every instrument state whose selected source is not one of them, no
preamble (not even a partial one) is returned, and — once the earlier
reply-decoding steps succeed — the assembly fails precisely with the
invalid-argument error of the discrete-set validator. -/
theorem claim_C2_source_check_aborts (st : Instr)
    (hsrc : st.waveform_source ∉ (["C1", "C2", "C3", "C4", "MATH"] : List String)) :
    (∀ p, waveform_preamble st ≠ Except.ok p) ∧
    (∀ sp np fp t hd, wfsu_fields st = Except.ok (sp, np, fp) →
      acquisition_type_value st = Except.ok t →
      pyIndex0 t = Except.ok hd →
      waveform_preamble st = Except.error (PyErr.valueError
        ("Value of " ++ st.waveform_source ++ " is not in the discrete set"))) := by
  constructor
  · intro p hp
    obtain ⟨-, -, -, A4, -⟩ := waveform_preamble_ok_inv st p hp
    exact hsrc A4
  · intro sp np fp t hd hf ha hi
    have h4 : strict_discrete_set st.waveform_source
        ["C1", "C2", "C3", "C4", "MATH"]
        = Except.error (PyErr.valueError
            ("Value of " ++ st.waveform_source ++ " is not in the discrete set")) := by
      rw [strict_discrete_set, if_neg hsrc]
    unfold waveform_preamble
    simp only [hf, ha, hi, h4]

/-- Witness for claim C2 at the state `stBad`, whose selected source is
the out-of-set token "C5". -/
theorem claim_C2_witness :
    (stBad.waveform_source ∉ (["C1", "C2", "C3", "C4", "MATH"] : List String)) ∧
    (∀ p, waveform_preamble stBad ≠ Except.ok p) ∧
    waveform_preamble stBad = Except.error (PyErr.valueError
      ("Value of " ++ stBad.waveform_source ++ " is not in the discrete set")) := by
  have h := claim_C2_source_check_aborts stBad (by decide)
  refine ⟨by decide, h.1, ?_⟩
  exact h.2 (Tok.num 1) (Tok.num 0) (Tok.num 0) (AcqValue.plain "normal")
    (Tok.str "n") (by rfl) (by rfl) (by rfl)

/-- Claim C4: for every WFSU? reply containing the marker tokens "SP",
"NP" and "FP", the assembled preamble's sparsing, requested_points and
first_point are the elements immediately following the first occurrence
of the respective marker. -/
theorem claim_C4_wfsu_marker_extraction (st : Instr) (p : Preamble)
    (a1 a2 a3 r1 r2 r3 : List Tok) (x y z : Tok)
    (h1 : st.wfsu_reply = a1 ++ Tok.str "SP" :: x :: r1)
    (n1 : Tok.str "SP" ∉ a1)
    (h2 : st.wfsu_reply = a2 ++ Tok.str "NP" :: y :: r2)
    (n2 : Tok.str "NP" ∉ a2)
    (h3 : st.wfsu_reply = a3 ++ Tok.str "FP" :: z :: r3)
    (n3 : Tok.str "FP" ∉ a3)
    (hp : waveform_preamble st = Except.ok p) :
    p.sparsing = x ∧ p.requested_points = y ∧ p.first_point = z := by
  obtain ⟨A1, -, -, -, -, -, -⟩ := waveform_preamble_ok_inv st p hp
  have hw := wfsu_fields_of_decomp st a1 a2 a3 r1 r2 r3 x y z h1 n1 h2 n2 h3 n3
  rw [A1] at hw
  injection hw with hw
  simp only [Prod.mk.injEq] at hw
  exact ⟨hw.1, hw.2.1, hw.2.2⟩

/-- Witness for claim C4 at the state `stW`, whose WFSU? reply is the
marker sequence of the spec's example. -/
theorem claim_C4_witness :
    stW.wfsu_reply
      = [] ++ Tok.str "SP" :: Tok.num 1 ::
          [Tok.str "NP", Tok.num 0, Tok.str "FP", Tok.num 0] ∧
    waveform_preamble stW = Except.ok pW ∧
    pW.sparsing = Tok.num 1 ∧ pW.requested_points = Tok.num 0 ∧
    pW.first_point = Tok.num 0 := by
  have h := claim_C4_wfsu_marker_extraction stW pW
    [] [Tok.str "SP", Tok.num 1] [Tok.str "SP", Tok.num 1, Tok.str "NP", Tok.num 0]
    [Tok.str "NP", Tok.num 0, Tok.str "FP", Tok.num 0] [Tok.str "FP", Tok.num 0] []
    (Tok.num 1) (Tok.num 0) (Tok.num 0)
    (by rfl) (by decide) (by rfl) (by decide) (by rfl) (by decide) (by rfl)
  exact ⟨by rfl, by rfl, h.1, h.2.1, h.2.2⟩

/-- The valid ACQW? replies are exactly the three plain mode tokens and
"AVERAGE" with a numeric count. -/
lemma validAcqReply_cases (v : List Tok) (hv : validAcqReply v = true) :
    v = [Tok.str "SAMPLING"] ∨ v = [Tok.str "PEAK_DETECT"] ∨
    v = [Tok.str "HIGH_RES"] ∨ ∃ q : Rat, v = [Tok.str "AVERAGE", Tok.num q] := by
  unfold validAcqReply at hv
  split at hv <;> simp_all

/-- Claim C5: in every preamble assembled from a valid ACQW? reply, the
"average" field carries the acquisition_average reading exactly when the
resolved acquisition type's primary tag is "average", and is explicitly
null in every other case. -/
theorem claim_C5_average_iff_average_type (st : Instr) (p : Preamble)
    (hv : validAcqReply st.acq_reply = true)
    (hp : waveform_preamble st = Except.ok p) :
    (p.type.primaryTag = "average" → p.average = some st.avga) ∧
    (p.type.primaryTag ≠ "average" → p.average = none) := by
  obtain ⟨-, A2, A3, -, -, -, -⟩ := waveform_preamble_ok_inv st p hp
  rcases validAcqReply_cases st.acq_reply hv with hacq | hacq | hacq | ⟨q, hacq⟩
  · have ht : acquisition_type_value st = Except.ok (AcqValue.plain "normal") := by
      simp [acquisition_type_value, hacq, invAcqMap]
    rw [A2] at ht
    injection ht with ht
    have hpi : pyIndex0 (AcqValue.plain "normal") = Except.ok (Tok.str "n") := rfl
    rw [ht] at A3 ⊢
    rw [hpi] at A3
    simp [Except.map] at A3
    simp [AcqValue.primaryTag, ← A3]
  · have ht : acquisition_type_value st = Except.ok (AcqValue.plain "peak") := by
      simp [acquisition_type_value, hacq, invAcqMap]
    rw [A2] at ht
    injection ht with ht
    have hpi : pyIndex0 (AcqValue.plain "peak") = Except.ok (Tok.str "p") := rfl
    rw [ht] at A3 ⊢
    rw [hpi] at A3
    simp [Except.map] at A3
    simp [AcqValue.primaryTag, ← A3]
  · have ht : acquisition_type_value st = Except.ok (AcqValue.plain "highres") := by
      simp [acquisition_type_value, hacq, invAcqMap]
    rw [A2] at ht
    injection ht with ht
    have hpi : pyIndex0 (AcqValue.plain "highres") = Except.ok (Tok.str "h") := rfl
    rw [ht] at A3 ⊢
    rw [hpi] at A3
    simp [Except.map] at A3
    simp [AcqValue.primaryTag, ← A3]
  · have ht : acquisition_type_value st
        = Except.ok (AcqValue.averaged (pyTrunc q)) := by
      simp [acquisition_type_value, hacq, pyIntTok, Except.map]
    rw [A2] at ht
    injection ht with ht
    rw [ht] at A3 ⊢
    simp [pyIndex0, Except.map] at A3
    simp [AcqValue.primaryTag, ← A3]

/-- Witness for claim C5 at the state `stC1`, whose scope reports average
acquisition with count 16. -/
theorem claim_C5_witness :
    validAcqReply stC1.acq_reply = true ∧
    pC1.type.primaryTag = "average" ∧
    pC1.average = some stC1.avga := by
  have h := claim_C5_average_iff_average_type stC1 pC1 (by rfl) (by rfl)
  exact ⟨by rfl, by rfl, h.1 (by rfl)⟩

/-- Claim C6: in every preamble assembly, when the selected source is the
derived channel "MATH" the ydiv and yoffset fields come from the math
channel's own vertical-scale and vertical-position properties and the
unit is null, while for a direct channel source all three come from that
channel's scale, offset and unit properties. -/
theorem claim_C6_yaxis_fields (st : Instr) (p : Preamble)
    (hp : waveform_preamble st = Except.ok p) :
    (st.waveform_source = "MATH" →
      p.ydiv = st.math_vdiv ∧ p.yoffset = st.math_vpos ∧ p.unit = none) ∧
    (st.waveform_source = "C1" →
      p.ydiv = st.ch1.scale ∧ p.yoffset = st.ch1.offset ∧ p.unit = some st.ch1.unit) ∧
    (st.waveform_source = "C2" →
      p.ydiv = st.ch2.scale ∧ p.yoffset = st.ch2.offset ∧ p.unit = some st.ch2.unit) ∧
    (st.waveform_source = "C3" →
      p.ydiv = st.ch3.scale ∧ p.yoffset = st.ch3.offset ∧ p.unit = some st.ch3.unit) ∧
    (st.waveform_source = "C4" →
      p.ydiv = st.ch4.scale ∧ p.yoffset = st.ch4.offset ∧ p.unit = some st.ch4.unit) := by
  obtain ⟨-, -, -, -, -, -, A7⟩ := waveform_preamble_ok_inv st p hp
  refine ⟨fun hs => ?_, fun hs => ?_, fun hs => ?_, fun hs => ?_, fun hs => ?_⟩
  · have hfx : fill_yaxis_preamble st
        = Except.ok (st.math_vdiv, st.math_vpos, none) := by
      rw [fill_yaxis_preamble, hs]
      rfl
    rw [hfx] at A7
    injection A7 with e
    simp only [Prod.mk.injEq] at e
    exact ⟨e.1.symm, e.2.1.symm, e.2.2.symm⟩
  · have hfx : fill_yaxis_preamble st
        = Except.ok (st.ch1.scale, st.ch1.offset, some st.ch1.unit) := by
      rw [fill_yaxis_preamble, hs]
      rfl
    rw [hfx] at A7
    injection A7 with e
    simp only [Prod.mk.injEq] at e
    exact ⟨e.1.symm, e.2.1.symm, e.2.2.symm⟩
  · have hfx : fill_yaxis_preamble st
        = Except.ok (st.ch2.scale, st.ch2.offset, some st.ch2.unit) := by
      rw [fill_yaxis_preamble, hs]
      rfl
    rw [hfx] at A7
    injection A7 with e
    simp only [Prod.mk.injEq] at e
    exact ⟨e.1.symm, e.2.1.symm, e.2.2.symm⟩
  · have hfx : fill_yaxis_preamble st
        = Except.ok (st.ch3.scale, st.ch3.offset, some st.ch3.unit) := by
      rw [fill_yaxis_preamble, hs]
      rfl
    rw [hfx] at A7
    injection A7 with e
    simp only [Prod.mk.injEq] at e
    exact ⟨e.1.symm, e.2.1.symm, e.2.2.symm⟩
  · have hfx : fill_yaxis_preamble st
        = Except.ok (st.ch4.scale, st.ch4.offset, some st.ch4.unit) := by
      rw [fill_yaxis_preamble, hs]
      rfl
    rw [hfx] at A7
    injection A7 with e
    simp only [Prod.mk.injEq] at e
    exact ⟨e.1.symm, e.2.1.symm, e.2.2.symm⟩

/-- Witness for claim C6 at the derived-source state `stW` and the
channel-1 state `stC1`. -/
theorem claim_C6_witness :
    (pW.ydiv = stW.math_vdiv ∧ pW.yoffset = stW.math_vpos ∧ pW.unit = none) ∧
    (pC1.ydiv = stC1.ch1.scale ∧ pC1.yoffset = stC1.ch1.offset ∧
      pC1.unit = some stC1.ch1.unit) :=
  ⟨(claim_C6_yaxis_fields stW pW (by rfl)).1 rfl,
   ((claim_C6_yaxis_fields stC1 pC1 (by rfl)).2.1) rfl⟩
